import Mathlib

/-!
Verification development for the YAML resume generator
(`resume_generator.py`).  The Python module is shallowly embedded:
YAML/Python values become the inductive `Yaml`, the ReportLab flowables
appended to `self.story` become the inductive `Block`, and every method
of `ResumeGenerator` that the claims touch becomes an executable Lean
function over those types.
-/

namespace ResumeGen

/-- Model of the Python/YAML values manipulated by the generator.
Mappings are association lists of string keys in document order
(matching insertion-ordered Python dicts with unique keys, which is what
`yaml.safe_load` produces for the documents in scope). -/
inductive Yaml where
  | str (s : String)
  | int (n : Int)
  | float (q : ℚ)
  | bool (b : Bool)
  | null
  | list (xs : List Yaml)
  | map (kvs : List (String × Yaml))

/-- Python truthiness (`if x:`) for the embedded values: empty string,
zero, False, None and empty containers are falsy. -/
def truthy : Yaml → Bool
  | .str s => s != ""
  | .int n => n != 0
  | .float q => q != 0
  | .bool b => b
  | .null => false
  | .list xs => !xs.isEmpty
  | .map kvs => !kvs.isEmpty

mutual
/-- Python `str()` on an embedded value.  Exact for strings, ints,
bools and None; the decimal rendering of floats and the repr-quoting
inside containers are abstracted (no claim stringifies those, and no
such rendering ever equals the string "present"). -/
def strOf : Yaml → String
  | .str s => s
  | .int n => toString n
  | .float q => toString q
  | .bool b => if b then "True" else "False"
  | .null => "None"
  | .list xs => "[" ++ strOfList xs ++ "]"
  | .map kvs => "\x7b" ++ strOfMap kvs ++ "\x7d"

def strOfList : List Yaml → String
  | [] => ""
  | [x] => strOf x
  | x :: y :: t => strOf x ++ ", " ++ strOfList (y :: t)

def strOfMap : List (String × Yaml) → String
  | [] => ""
  | [kv] => kv.1 ++ ": " ++ strOf kv.2
  | kv :: kv2 :: t => kv.1 ++ ": " ++ strOf kv.2 ++ ", " ++ strOfMap (kv2 :: t)
end

/-- Dictionary lookup: `some` of the value bound to the first occurrence
of the key when the value is a mapping containing it, else `none`. -/
def optLookup : Yaml → String → Option Yaml
  | .map kvs, k =>
      match kvs.find? (fun kv => kv.1 == k) with
      | some kv => some kv.2
      | none => none
  | _, _ => none

/-- Python `x == key` for a string `key` (used for list membership in
`in`): only equal strings compare equal. -/
def eqStrKey (k : String) : Yaml → Bool
  | .str s => s == k
  | _ => false

/-- Python `key in x` for a string key.  `none` models the `TypeError`
raised when `x` is not a container or string (int, float, bool, None). -/
def pyContains (x : Yaml) (k : String) : Option Bool :=
  match x with
  | .map kvs => some ((optLookup (.map kvs) k).isSome)
  | .list xs => some (xs.any (eqStrKey k))
  | .str s => some (decide (k.toList <:+: s.toList))
  | _ => none

/-- Python `x[key]` for a string key.  `none` models the uncaught
exception raised when `x` is not a mapping (`TypeError` for strings,
lists and scalars) or lacks the key (`KeyError`, unreachable in the
source because every subscript is guarded by `in`). -/
def pyGetItem (x : Yaml) (k : String) : Option Yaml :=
  match x with
  | .map kvs => optLookup (.map kvs) k
  | _ => none

/-- The three ways the on-disk input can present itself to
`_load_yaml`: a missing file (`FileNotFoundError`), malformed YAML
(`yaml.YAMLError`), or a successfully parsed document. -/
inductive LoadInput where
  | missing
  | malformed
  | parsed (d : Yaml)

/-- Outcome of `_load_yaml`.  The three error constructors are the
caught branches (each prints a diagnostic and calls `sys.exit(1)`);
`typeCrash` models an exception the method does not catch, which
aborts the interpreter with a traceback (also a non-zero exit). -/
inductive LoadOutcome where
  | ok (d : Yaml)
  | notFound
  | parseError
  | validationError (msg : String)
  | typeCrash

/-- Embedding of `ResumeGenerator._load_yaml`: parse, reject falsy
documents, require a `personal` member and a `name` member inside it. -/
def loadYaml : LoadInput → LoadOutcome
  | .missing => .notFound
  | .malformed => .parseError
  | .parsed d =>
      if truthy d = false then .validationError "YAML file is empty"
      else
        match pyContains d "personal" with
        | none => .typeCrash
        | some b =>
            if b = false then .validationError "Missing required personal section"
            else
              match pyGetItem d "personal" with
              | none => .typeCrash
              | some personal =>
                  match pyContains personal "name" with
                  | none => .typeCrash
                  | some nb =>
                      if nb = false then
                        .validationError "Missing required name field in personal section"
                      else .ok d

/-- Whether a load outcome is the validation-error branch. -/
def isValidationError : LoadOutcome → Bool
  | .validationError _ => true
  | _ => false

/-- Process exit status forced by a load outcome: `none` means the run
continues, `some 1` means the process terminates with status 1 (either
`sys.exit(1)` or an uncaught exception). -/
def loadExit : LoadOutcome → Option Nat
  | .ok _ => none
  | _ => some 1

/-- Python `str.lower()` (ASCII): each character lowercased. -/
def pyLower (s : String) : String :=
  String.mk (s.toList.map Char.toLower)

/-- Python `str.strip()`: leading and trailing whitespace removed. -/
def pyStrip (s : String) : String :=
  String.mk (((s.toList.dropWhile Char.isWhitespace).reverse.dropWhile
    Char.isWhitespace).reverse)

/-- Embedding of `ResumeGenerator._format_date_range`.  The source
normalises both dates through `str()` and tests the Python truthiness
of `start_date`, `end_date` and `present`. -/
def formatDateRange (start_date end_date present : Yaml) : String :=
  if truthy start_date = false then ""
  else
    let start := strOf start_date
    if truthy present || (truthy end_date && (pyLower (strOf end_date) == "present")) then
      start ++ " - Present"
    else if truthy end_date then
      start ++ " - " ++ strOf end_date
    else start

/-- Abstract content blocks: the ReportLab flowables appended to
`self.story`.  `para` is a `Paragraph(text, styles[style])`, `hr` the
divider `HRFlowable` under a section header, `spacer h` a
`Spacer(1, h)` of height `h` points, and `table` a `Table` whose cells
are paragraphs given as (text, style) pairs. -/
inductive Block where
  | para (text : String) (style : String)
  | hr
  | spacer (h : ℚ)
  | table (rows : List (List (String × String)))

/-- One inch in points (`reportlab.lib.units.inch`).  Spacer heights are
computed in ℚ; the source computes them in floating point, but no claim
compares heights numerically. -/
def inch : ℚ := 72

/-- The resolved configuration produced by `_load_config`.  Fields keep
the raw document values (the source never coerces them), so they are
`Yaml`. -/
structure Config where
  font_name : Yaml
  font_name_bold : Yaml
  font_name_italic : Yaml
  name_size : Yaml
  section_header_size : Yaml
  title_size : Yaml
  body_size : Yaml
  margin : Yaml
  section_spacing : Yaml
  item_spacing : Yaml
  section_order : Yaml
  footer : Yaml

/-- The hard-coded default section order in `_load_config`. -/
def defaultSectionOrder : List String :=
  ["summary", "experience", "education", "skills", "projects",
   "certifications", "awards", "publications", "languages", "volunteer"]

/-- Python `x.get(k, dflt)`: `none` models the `AttributeError` raised
when `x` is not a mapping. -/
def pyGet (x : Yaml) (k : String) (dflt : Yaml) : Option Yaml :=
  match x with
  | .map kvs => some ((optLookup (.map kvs) k).getD dflt)
  | _ => none

/-- Total variant of `.get` used inside the block builders.  Every
claim in scope supplies mapping-shaped records there; on a non-mapping
the source raises (out of scope) while this embedding yields the
default. -/
def dictGet (d : Yaml) (k : String) (dflt : Yaml) : Yaml :=
  (optLookup d k).getD dflt

/-- Embedding of `ResumeGenerator._load_config`: overlay the document's
`config` sub-tree on the documented defaults.  `none` models the
uncaught `AttributeError` the source raises when the `config` value or
its `fonts` value is not a mapping.  The source performs twelve further
`.get` calls; once `config.get('fonts', {})` has succeeded `config` is
a mapping, so the five `config.get` calls cannot fail, and the seven
`fonts.get` calls fail exactly when `fonts` is not a mapping — which is
how the failure cases are grouped here. -/
def loadConfigE (data : Yaml) : Option Config :=
  match pyGet data "config" (.map []) with
  | none => none
  | some config =>
      match pyGet config "fonts" (.map []) with
      | none => none
      | some fonts =>
          match fonts with
          | .map fkvs =>
              some
                { font_name := dictGet (.map fkvs) "name" (.str "Helvetica")
                  font_name_bold := dictGet (.map fkvs) "name_bold" (.str "Helvetica-Bold")
                  font_name_italic := dictGet (.map fkvs) "name_italic" (.str "Helvetica-Oblique")
                  name_size := dictGet (.map fkvs) "name_size" (.int 20)
                  section_header_size := dictGet (.map fkvs) "section_header_size" (.int 12)
                  title_size := dictGet (.map fkvs) "title_size" (.int 10)
                  body_size := dictGet (.map fkvs) "body_size" (.int 9)
                  margin := dictGet config "margin" (.float 0.6)
                  section_spacing := dictGet config "section_spacing" (.float 0.08)
                  item_spacing := dictGet config "item_spacing" (.float 0.06)
                  section_order := dictGet config "section_order"
                    (.list (defaultSectionOrder.map .str))
                  footer := dictGet config "footer" (.bool false) }
          | _ => none

/-- The fully defaulted configuration (what `_load_config` resolves for
a document with no `config` sub-tree). -/
def defaultConfig : Config :=
  { font_name := .str "Helvetica"
    font_name_bold := .str "Helvetica-Bold"
    font_name_italic := .str "Helvetica-Oblique"
    name_size := .int 20
    section_header_size := .int 12
    title_size := .int 10
    body_size := .int 9
    margin := .float 0.6
    section_spacing := .float 0.08
    item_spacing := .float 0.06
    section_order := .list (defaultSectionOrder.map .str)
    footer := .bool false }

/-- Python `k in d` for the mapping-shaped documents the builders are
given (see `pyContains` for the general operator). -/
def hasKey (d : Yaml) (k : String) : Bool :=
  (optLookup d k).isSome

/-- Python `d[k]`, used in the source only under a `k in d` guard, so
the `.null` fallback is never observed. -/
def getItemD (d : Yaml) (k : String) : Yaml :=
  (optLookup d k).getD .null

/-- Elements of a value iterated as a Python list.  The builders only
iterate list-shaped section values in scope; iterating any other shape
either raises in the source or walks keys/characters (out of scope). -/
def asList : Yaml → List Yaml
  | .list xs => xs
  | _ => []

/-- Key/value pairs of a mapping value (Python `.items()`). -/
def asItems : Yaml → List (String × Yaml)
  | .map kvs => kvs
  | _ => []

/-- Numeric value of a spacing option (Python would multiply the raw
value by `inch`; bools count as 0/1, other non-numbers are out of
scope). -/
def toQ : Yaml → ℚ
  | .int n => n
  | .float q => q
  | .bool b => if b then 1 else 0
  | _ => 0

/-- Python `str.title()` restricted to ASCII: a letter is uppercased
when the previous character is not a letter, lowercased otherwise. -/
def pyTitleGo : Bool → List Char → List Char
  | _, [] => []
  | prevAlpha, c :: t =>
      (if c.isAlpha then (if prevAlpha then c.toLower else c.toUpper) else c)
        :: pyTitleGo c.isAlpha t

def pyTitle (s : String) : String :=
  String.mk (pyTitleGo false s.toList)

/-- Embedding of `_add_section_header`: the header paragraph plus the
divider rule. -/
def addSectionHeader (title : String) (story : List Block) : List Block :=
  story ++ [Block.para title "SectionHeader", Block.hr]

/-- The location fragment of the contact line in `_build_header`:
city/state/country joined when the location is a mapping, else the
stringified value. -/
def locationText (location : Yaml) : String :=
  match location with
  | .map kvs =>
      let loc_parts :=
        (if hasKey (.map kvs) "city" then [strOf (getItemD (.map kvs) "city")] else []) ++
        (if hasKey (.map kvs) "state" then [strOf (getItemD (.map kvs) "state")] else []) ++
        (if hasKey (.map kvs) "country" then [strOf (getItemD (.map kvs) "country")] else [])
      String.intercalate ", " loc_parts
  | y => strOf y

/-- Link fragments of `_build_header`: one `Label: value` part per
truthy link, label title-cased, in mapping order. -/
def linkParts : List (String × Yaml) → List String
  | [] => []
  | (k, v) :: t =>
      (if truthy v then [pyTitle k ++ ": " ++ strOf v] else []) ++ linkParts t

/-- Embedding of `_build_header`: name paragraph, optional contact
line, optional links line, trailing section spacer. -/
def buildHeader (data : Yaml) (cfg : Config) (story : List Block) : List Block :=
  let personal := dictGet data "personal" (.map [])
  let name := strOf (dictGet personal "name" (.str ""))
  let story := story ++ [Block.para name "Name"]
  let contact_parts :=
    (if hasKey personal "email" then [strOf (getItemD personal "email")] else []) ++
    (if hasKey personal "phone" then [strOf (getItemD personal "phone")] else []) ++
    (if hasKey personal "location" then [locationText (getItemD personal "location")] else [])
  let story :=
    if contact_parts.isEmpty then story
    else story ++ [Block.para (String.intercalate " • " contact_parts) "Contact"]
  let links := dictGet personal "links" (.map [])
  let story :=
    if truthy links then
      let link_parts := linkParts (asItems links)
      if link_parts.isEmpty then story
      else story ++ [Block.para (String.intercalate " • " link_parts) "Contact"]
    else story
  story ++ [Block.spacer (toQ cfg.section_spacing * inch)]

/-- Embedding of `_build_summary`: a string summary is used as is, a
list summary is joined with spaces, anything else is ignored; an empty
text emits nothing. -/
def buildSummary (data : Yaml) (cfg : Config) (story : List Block) : List Block :=
  if hasKey data "summary" = false then story
  else
    match getItemD data "summary" with
    | .str s =>
        if s == "" then story
        else addSectionHeader "PROFESSIONAL SUMMARY" story ++
          [Block.para s "Summary", Block.spacer (toQ cfg.item_spacing * inch)]
    | .list xs =>
        let summary_text := String.intercalate " " (xs.map strOf)
        if summary_text == "" then story
        else addSectionHeader "PROFESSIONAL SUMMARY" story ++
          [Block.para summary_text "Summary", Block.spacer (toQ cfg.item_spacing * inch)]
    | _ => story

/-- A bullet line `• <highlight>` in style ResumeBody (the f-string
`f"• {highlight}"` of the source). -/
def mkBullet (h : Yaml) : Block :=
  Block.para ("• " ++ strOf h) "ResumeBody"

/-- The highlight loop of `_build_experience`: entries that are falsy
or whose `.strip()` is empty are skipped.  The source calls
`highlight.strip()`; the embedding trims the stringified value, which
is identical for the string highlights every claim concerns (a
non-string highlight raises `AttributeError` in the source). -/
def expHighlightBlocks : List Yaml → List Block
  | [] => []
  | h :: t =>
      (if truthy h && pyStrip (strOf h) != "" then [mkBullet h] else []) ++
        expHighlightBlocks t

/-- The highlight loops of `_build_education`, `_build_projects` and
`_build_volunteer`: every entry becomes a bullet, with no blank
filter. -/
def plainHighlightBlocks (hs : List Yaml) : List Block :=
  hs.map mkBullet

/-- The one-row two-column `Table` used for title/date alignment
(ItemTitle cell left, DateRange cell right). -/
def titleRow (left right : String) : Block :=
  Block.table [[(left, "ItemTitle"), (right, "DateRange")]]

/-- Blocks of one experience entry (the body of the loop in
`_build_experience`). -/
def expItemBlocks (exp : Yaml) : List Block :=
  let title := strOf (dictGet exp "title" (.str ""))
  let company := dictGet exp "company" (.str "")
  let date_range := formatDateRange (dictGet exp "start_date" .null)
    (dictGet exp "end_date" .null) (dictGet exp "present" (.bool false))
  let location := dictGet exp "location" (.str "")
  [titleRow title date_range] ++
  (if truthy company then
      [Block.para (strOf company ++
        (if truthy location then " • " ++ strOf location else "")) "ItemSubtitle"]
    else []) ++
  (if hasKey exp "description" && truthy (getItemD exp "description") then
      [Block.spacer (3/100 * inch),
       Block.para (strOf (getItemD exp "description")) "ResumeBody"]
    else []) ++
  (if hasKey exp "highlights" && truthy (getItemD exp "highlights") then
      Block.spacer (3/100 * inch) :: expHighlightBlocks (asList (getItemD exp "highlights"))
    else [])

/-- The `for i, item in enumerate(...)` pattern shared by experience,
education, projects and volunteer: an inter-item spacer before every
entry but the first, then the entry's blocks. -/
def itemLoop (itemBlocks : Yaml → List Block) (isp : ℚ) :
    Nat → List Yaml → List Block → List Block
  | _, [], story => story
  | i, e :: t, story =>
      itemLoop itemBlocks isp (i + 1) t
        ((if 0 < i then story ++ [Block.spacer isp] else story) ++ itemBlocks e)

/-- Embedding of `_build_experience`. -/
def buildExperience (data : Yaml) (cfg : Config) (story : List Block) : List Block :=
  if hasKey data "experience" = false then story
  else if truthy (getItemD data "experience") = false then story
  else
    itemLoop expItemBlocks (toQ cfg.item_spacing * inch) 0
        (asList (getItemD data "experience"))
        (addSectionHeader "PROFESSIONAL EXPERIENCE" story) ++
      [Block.spacer (toQ cfg.section_spacing * inch)]

/-- Blocks of one education entry (loop body of `_build_education`);
note its highlight loop has no blank filter and no leading spacer. -/
def eduItemBlocks (edu : Yaml) : List Block :=
  let degree := dictGet edu "degree" (.str "")
  let field := dictGet edu "field" (.str "")
  let degree_text :=
    if truthy degree && truthy field then strOf degree ++ " in " ++ strOf field
    else if truthy degree then strOf degree
    else if truthy field then strOf field
    else ""
  let date_range := formatDateRange (dictGet edu "start_date" .null)
    (dictGet edu "end_date" .null) (dictGet edu "present" (.bool false))
  let institution := dictGet edu "institution" (.str "")
  let location := dictGet edu "location" (.str "")
  let details :=
    (if hasKey edu "gpa" then ["GPA: " ++ strOf (getItemD edu "gpa")] else []) ++
    (if hasKey edu "honors" then [strOf (getItemD edu "honors")] else [])
  (if degree_text != "" then [titleRow degree_text date_range] else []) ++
  (if truthy institution then
      [Block.para (strOf institution ++
        (if truthy location then " • " ++ strOf location else "")) "ItemSubtitle"]
    else []) ++
  (if details.isEmpty then []
    else [Block.para (String.intercalate " • " details) "ResumeBody"]) ++
  (if hasKey edu "highlights" && truthy (getItemD edu "highlights") then
      plainHighlightBlocks (asList (getItemD edu "highlights"))
    else [])

/-- Embedding of `_build_education`. -/
def buildEducation (data : Yaml) (cfg : Config) (story : List Block) : List Block :=
  if hasKey data "education" = false then story
  else if truthy (getItemD data "education") = false then story
  else
    itemLoop eduItemBlocks (toQ cfg.item_spacing * inch) 0
        (asList (getItemD data "education"))
        (addSectionHeader "EDUCATION" story) ++
      [Block.spacer (toQ cfg.section_spacing * inch)]

/-- Category lines of the mapping shape of `_build_skills`: truthy
categories become one bolded line each. -/
def skillsCategoryBlocks : List (String × Yaml) → List Block
  | [] => []
  | (category, skill_list) :: t =>
      (if truthy skill_list then
          let skills_text :=
            match skill_list with
            | .list xs => String.intercalate ", " (xs.map strOf)
            | y => strOf y
          [Block.para ("<b>" ++ category ++ ":</b> " ++ skills_text) "SkillItem"]
        else []) ++ skillsCategoryBlocks t

/-- Embedding of `_build_skills`: mapping shape renders per-category
lines, list shape one comma-joined line, any other truthy shape only
the header and spacer. -/
def buildSkills (data : Yaml) (cfg : Config) (story : List Block) : List Block :=
  if hasKey data "skills" = false then story
  else if truthy (getItemD data "skills") = false then story
  else
    let story := addSectionHeader "SKILLS" story
    let story :=
      match getItemD data "skills" with
      | .map kvs => story ++ skillsCategoryBlocks kvs
      | .list xs =>
          story ++ [Block.para (String.intercalate ", " (xs.map strOf)) "SkillItem"]
      | _ => story
    story ++ [Block.spacer (toQ cfg.section_spacing * inch)]

/-- Blocks of one project entry (loop body of `_build_projects`); its
highlight loop has no blank filter. -/
def projItemBlocks (project : Yaml) : List Block :=
  let name := dictGet project "name" (.str "")
  let date := strOf (dictGet project "date" (.str ""))
  (if truthy name then [titleRow (strOf name) date] else []) ++
  (if hasKey project "technologies" then
      let tech_text :=
        match getItemD project "technologies" with
        | .list xs => String.intercalate ", " (xs.map strOf)
        | y => strOf y
      [Block.para ("<i>Technologies:</i> " ++ tech_text) "ItemSubtitle"]
    else []) ++
  (if hasKey project "description" then
      [Block.spacer (3/100 * inch),
       Block.para (strOf (getItemD project "description")) "ResumeBody"]
    else []) ++
  (if hasKey project "highlights" && truthy (getItemD project "highlights") then
      Block.spacer (3/100 * inch) ::
        plainHighlightBlocks (asList (getItemD project "highlights"))
    else []) ++
  (if hasKey project "url" then
      [Block.para ("<i>Link:</i> " ++ strOf (getItemD project "url")) "ResumeBody"]
    else [])

/-- Embedding of `_build_projects`. -/
def buildProjects (data : Yaml) (cfg : Config) (story : List Block) : List Block :=
  if hasKey data "projects" = false then story
  else if truthy (getItemD data "projects") = false then story
  else
    itemLoop projItemBlocks (toQ cfg.item_spacing * inch) 0
        (asList (getItemD data "projects"))
        (addSectionHeader "PROJECTS" story) ++
      [Block.spacer (toQ cfg.section_spacing * inch)]

/-- The un-indexed `for item in ...` loop shared by certifications,
awards and publications (no inter-item spacer; each entry carries its
own fixed trailing spacer). -/
def plainLoop (itemBlocks : Yaml → List Block) :
    List Yaml → List Block → List Block
  | [], story => story
  | e :: t, story => plainLoop itemBlocks t (story ++ itemBlocks e)

/-- Blocks of one certification entry (loop body of
`_build_certifications`), ending in the fixed 0.04 inch spacer. -/
def certItemBlocks (cert : Yaml) : List Block :=
  let name := dictGet cert "name" (.str "")
  let issuer := dictGet cert "issuer" (.str "")
  let date := strOf (dictGet cert "date" (.str ""))
  (if truthy name then [titleRow (strOf name) date] else []) ++
  (if truthy issuer then [Block.para (strOf issuer) "ItemSubtitle"] else []) ++
  (if hasKey cert "credential_id" then
      [Block.para ("Credential ID: " ++ strOf (getItemD cert "credential_id")) "ResumeBody"]
    else []) ++
  [Block.spacer (4/100 * inch)]

/-- Embedding of `_build_certifications`; note the fixed 0.03 inch
trailing spacer instead of the configurable section spacer. -/
def buildCertifications (data : Yaml) (_cfg : Config) (story : List Block) : List Block :=
  if hasKey data "certifications" = false then story
  else if truthy (getItemD data "certifications") = false then story
  else
    plainLoop certItemBlocks (asList (getItemD data "certifications"))
        (addSectionHeader "CERTIFICATIONS" story) ++
      [Block.spacer (3/100 * inch)]

/-- Blocks of one award entry (loop body of `_build_awards`). -/
def awardItemBlocks (award : Yaml) : List Block :=
  let name := dictGet award "name" (.str "")
  let issuer := dictGet award "issuer" (.str "")
  let date := strOf (dictGet award "date" (.str ""))
  (if truthy name then [titleRow (strOf name) date] else []) ++
  (if truthy issuer then [Block.para (strOf issuer) "ItemSubtitle"] else []) ++
  (if hasKey award "description" then
      [Block.para (strOf (getItemD award "description")) "ResumeBody"]
    else []) ++
  [Block.spacer (4/100 * inch)]

/-- Embedding of `_build_awards`. -/
def buildAwards (data : Yaml) (_cfg : Config) (story : List Block) : List Block :=
  if hasKey data "awards" = false then story
  else if truthy (getItemD data "awards") = false then story
  else
    plainLoop awardItemBlocks (asList (getItemD data "awards"))
        (addSectionHeader "AWARDS & HONORS" story) ++
      [Block.spacer (3/100 * inch)]

/-- Blocks of one publication entry (loop body of
`_build_publications`). -/
def pubItemBlocks (pub : Yaml) : List Block :=
  let title := dictGet pub "title" (.str "")
  let authors := dictGet pub "authors" (.str "")
  let venue := dictGet pub "venue" (.str "")
  let date := dictGet pub "date" (.str "")
  let venue_date :=
    (if truthy venue then [strOf venue] else []) ++
    (if truthy date then [strOf date] else [])
  (if truthy title then
      [Block.para ("<b>" ++ strOf title ++ "</b>") "ItemTitle"] else []) ++
  (if truthy authors then
      let authors_text :=
        match authors with
        | .list xs => String.intercalate ", " (xs.map strOf)
        | y => strOf y
      [Block.para authors_text "ResumeBody"]
    else []) ++
  (if venue_date.isEmpty then []
    else [Block.para ("<i>" ++ String.intercalate ", " venue_date ++ "</i>") "ItemSubtitle"]) ++
  (if hasKey pub "doi" then
      [Block.para ("DOI: " ++ strOf (getItemD pub "doi")) "ResumeBody"] else []) ++
  [Block.spacer (4/100 * inch)]

/-- Embedding of `_build_publications`. -/
def buildPublications (data : Yaml) (_cfg : Config) (story : List Block) : List Block :=
  if hasKey data "publications" = false then story
  else if truthy (getItemD data "publications") = false then story
  else
    plainLoop pubItemBlocks (asList (getItemD data "publications"))
        (addSectionHeader "PUBLICATIONS" story) ++
      [Block.spacer (3/100 * inch)]

/-- Bullets for the list shape of `_build_languages`: mapping entries
with a truthy name render `name (level)`, other entries are
stringified. -/
def langListBlocks : List Yaml → List Block
  | [] => []
  | lang :: t =>
      (match lang with
       | .map kvs =>
           let name := dictGet (.map kvs) "name" (.str "")
           let level := dictGet (.map kvs) "level" (.str "")
           if truthy name then
             [Block.para ("• " ++ strOf name ++
               (if truthy level then " (" ++ strOf level ++ ")" else "")) "ResumeBody"]
           else []
       | y => [Block.para ("• " ++ strOf y) "ResumeBody"]) ++ langListBlocks t

/-- Embedding of `_build_languages`: a mapping renders one comma-joined
`lang (level)` line, a list renders bullets, any other truthy shape
only the header and spacer. -/
def buildLanguages (data : Yaml) (cfg : Config) (story : List Block) : List Block :=
  if hasKey data "languages" = false then story
  else if truthy (getItemD data "languages") = false then story
  else
    let story := addSectionHeader "LANGUAGES" story
    let story :=
      match getItemD data "languages" with
      | .map kvs =>
          story ++ [Block.para (String.intercalate ", "
            (kvs.map (fun kv => kv.1 ++ " (" ++ strOf kv.2 ++ ")"))) "SkillItem"]
      | .list xs => story ++ langListBlocks xs
      | _ => story
    story ++ [Block.spacer (toQ cfg.section_spacing * inch)]

/-- Blocks of one volunteer entry (loop body of `_build_volunteer`);
its highlight loop has no blank filter. -/
def volItemBlocks (vol : Yaml) : List Block :=
  let role := dictGet vol "role" (.str "")
  let organization := dictGet vol "organization" (.str "")
  let date_range := formatDateRange (dictGet vol "start_date" .null)
    (dictGet vol "end_date" .null) (dictGet vol "present" (.bool false))
  (if truthy role then [titleRow (strOf role) date_range] else []) ++
  (if truthy organization then
      [Block.para (strOf organization) "ItemSubtitle"] else []) ++
  (if hasKey vol "description" then
      [Block.spacer (3/100 * inch),
       Block.para (strOf (getItemD vol "description")) "ResumeBody"]
    else []) ++
  (if hasKey vol "highlights" && truthy (getItemD vol "highlights") then
      Block.spacer (3/100 * inch) ::
        plainHighlightBlocks (asList (getItemD vol "highlights"))
    else [])

/-- Embedding of `_build_volunteer`. -/
def buildVolunteer (data : Yaml) (cfg : Config) (story : List Block) : List Block :=
  if hasKey data "volunteer" = false then story
  else if truthy (getItemD data "volunteer") = false then story
  else
    itemLoop volItemBlocks (toQ cfg.item_spacing * inch) 0
        (asList (getItemD data "volunteer"))
        (addSectionHeader "VOLUNTEER EXPERIENCE" story) ++
      [Block.spacer (toQ cfg.section_spacing * inch)]

/-- The `section_builders` dispatch table of `generate`: the ten
recognized section names and their renderers. -/
def sectionBuilder : String → Option (Yaml → Config → List Block → List Block)
  | "summary" => some buildSummary
  | "experience" => some buildExperience
  | "education" => some buildEducation
  | "skills" => some buildSkills
  | "projects" => some buildProjects
  | "certifications" => some buildCertifications
  | "awards" => some buildAwards
  | "publications" => some buildPublications
  | "languages" => some buildLanguages
  | "volunteer" => some buildVolunteer
  | _ => none

/-- Whether an entry of the configured section order is a recognized
section name. -/
def recognizedName : Yaml → Bool
  | .str n => (sectionBuilder n).isSome
  | _ => false

/-- The section loop of `generate`: invoke the matching renderer for
each recognized name in order; an unrecognized name is skipped and its
stringified form is collected as a printed warning. -/
def runSections (data : Yaml) (cfg : Config) :
    List Yaml → List Block → List Block × List String
  | [], story => (story, [])
  | y :: t, story =>
      match y with
      | .str n =>
          match sectionBuilder n with
          | some b => runSections data cfg t (b data cfg story)
          | none =>
              let r := runSections data cfg t story
              (r.1, n :: r.2)
      | y =>
          let r := runSections data cfg t story
          (r.1, strOf y :: r.2)

/-- The attribution line appended when the footer option is on. -/
def footerText : String :=
  "Generated by Resume Generator | George Yuanji Wang"

/-- The footer step of `generate`: a fixed spacer plus the attribution
paragraph when `config.footer` is truthy, nothing otherwise. -/
def footerStep (cfg : Config) (story : List Block) : List Block :=
  if truthy cfg.footer then
    story ++ [Block.spacer (2/10 * inch), Block.para footerText "Footer"]
  else story

/-- Python `name.replace(' ', '_')`: single-character replacement. -/
def replaceSpaces (s : String) : String :=
  String.mk (s.toList.map (fun c => if c = ' ' then '_' else c))

/-- The output filename `generate` derives: the person's name with
spaces replaced by underscores, plus the fixed suffix. -/
def outputFileName (data : Yaml) : String :=
  replaceSpaces (strOf (dictGet (dictGet data "personal" (.map []))
      "name" (.str "resume"))) ++ "_resume.pdf"

/-- Embedding of `ResumeGenerator.generate` up to the hand-off to the
external render delegate: resolve the configuration (`none` is the
uncaught error of a non-mapping `config`/`fonts` value), build the
header, run the sections in configured order, optionally append the
footer.  Returns the final block sequence and the unknown-section
warnings in print order. -/
def generateE (data : Yaml) : Option (List Block × List String) :=
  match loadConfigE data with
  | none => none
  | some cfg =>
      let story := buildHeader data cfg []
      let r := runSections data cfg (asList cfg.section_order) story
      some (footerStep cfg r.1, r.2)

/-- Exit status of one whole run (`main`): load failures and config
crashes exit non-zero; otherwise the run exits 0 when the external
render delegate succeeds and 1 when it raises. -/
def runProgram (inp : LoadInput) (renderOk : Bool) : Nat :=
  match loadYaml inp with
  | .ok d =>
      match generateE d with
      | none => 1
      | some _ => if renderOk then 0 else 1
  | _ => 1

/-- A valid document whose only content is `personal.name`. -/
def soloDoc (s : String) : Yaml :=
  .map [("personal", .map [("name", .str s)])]

/-- One configuration option resolves independently: the field holds
the default when the key is unspecified and the supplied value when it
is specified. -/
def resolves (o : Option Yaml) (field dflt : Yaml) : Prop :=
  (o = none → field = dflt) ∧ ∀ v, o = some v → field = v

/-- A valid document that configures `section_order: [education,
experience]` while listing no section data of its own. -/
def orderDoc : Yaml :=
  .map [("personal", .map [("name", .str "A")]),
        ("config", .map [("section_order",
          .list [.str "education", .str "experience"])])]

/-- The configuration `orderDoc` resolves to. -/
def orderCfg : Config :=
  { defaultConfig with section_order := .list [.str "education", .str "experience"] }

/-- C1: the date-range formatter returns the empty string when the
start value is falsy; `<start> - Present` when the present flag is
truthy or the end value (a string, as a value equal to "present" must
be) case-insensitively equals "present"; `<start> - <end>` when a
truthy end value is given and the present cases do not apply; and just
`<start>` otherwise — with values stringified by `strOf`. -/
theorem dateRange_spec (s e p : Yaml) :
    (truthy s = false → formatDateRange s e p = "") ∧
    (truthy s = true → truthy p = true →
      formatDateRange s e p = strOf s ++ " - Present") ∧
    (∀ es : String, truthy s = true → e = .str es → pyLower es = "present" →
      formatDateRange s e p = strOf s ++ " - Present") ∧
    (truthy s = true → truthy p = false → pyLower (strOf e) ≠ "present" →
      truthy e = true → formatDateRange s e p = strOf s ++ " - " ++ strOf e) ∧
    (truthy s = true → truthy p = false → truthy e = false →
      formatDateRange s e p = strOf s) := by
  refine ⟨fun hs => ?_, fun hs hp => ?_, fun es hs he hlow => ?_,
    fun hs hp hne he => ?_, fun hs hp he => ?_⟩
  · simp [formatDateRange, hs]
  · simp [formatDateRange, hs, hp]
  · subst he
    have hes : es ≠ "" := by
      intro h0
      rw [h0] at hlow
      exact absurd hlow (by decide)
    have htr : truthy (Yaml.str es) = true := by simp [truthy, hes]
    simp [formatDateRange, hs, htr, strOf, hlow]
  · simp [formatDateRange, hs, hp, he, hne]
  · simp [formatDateRange, hs, hp, he]

/-- Witness for C1 at the five examples given by the specification. -/
theorem dateRange_spec_witness :
    formatDateRange (.str "2020") .null (.bool false) = "2020" ∧
    formatDateRange (.str "2020") (.str "2022") (.bool false) = "2020 - 2022" ∧
    formatDateRange (.str "2020") .null (.bool true) = "2020 - Present" ∧
    formatDateRange .null (.str "2022") (.bool true) = "" ∧
    formatDateRange (.str "2020") (.str "Present") (.bool false) = "2020 - Present" := by
  refine ⟨?_, ?_, ?_, ?_, ?_⟩
  · exact (dateRange_spec _ _ _).2.2.2.2 rfl rfl rfl
  · exact (dateRange_spec _ _ _).2.2.2.1 rfl rfl (by decide) rfl
  · exact (dateRange_spec _ _ _).2.1 rfl rfl
  · exact (dateRange_spec _ _ _).1 rfl
  · exact (dateRange_spec (.str "2020") (.str "Present") (.bool false)).2.2.1
      "Present" rfl rfl (by decide)

/-- C2 counterexample: the document `5` parses, is truthy, and lacks a
`personal` mapping, yet loading does not fail with a validation error:
`'personal' in 5` raises an uncaught `TypeError`, so the claimed
validation diagnostic is never printed (the exit is still non-zero). -/
theorem load_scalar_doc_crashes :
    truthy (Yaml.int 5) = true ∧
    loadYaml (.parsed (.int 5)) = .typeCrash ∧
    isValidationError (loadYaml (.parsed (.int 5))) = false ∧
    loadExit (loadYaml (.parsed (.int 5))) = some 1 :=
  ⟨rfl, rfl, rfl, rfl⟩

/-- C2 amended: every falsy parsed document, every truthy mapping
document lacking the `personal` key, and every mapping document whose
`personal` value is a mapping lacking the `name` key fails with a
validation error and a non-zero exit; a missing path yields NotFound
and a malformed document yields ParseError, each with non-zero exit. -/
theorem load_validation_spec :
    (∀ d, truthy d = false →
      loadYaml (.parsed d) = .validationError "YAML file is empty" ∧
      loadExit (loadYaml (.parsed d)) = some 1) ∧
    (∀ kvs, truthy (Yaml.map kvs) = true →
      hasKey (.map kvs) "personal" = false →
      loadYaml (.parsed (.map kvs)) =
        .validationError "Missing required personal section" ∧
      loadExit (loadYaml (.parsed (.map kvs))) = some 1) ∧
    (∀ kvs pkvs, optLookup (.map kvs) "personal" = some (.map pkvs) →
      hasKey (.map pkvs) "name" = false →
      loadYaml (.parsed (.map kvs)) =
        .validationError "Missing required name field in personal section" ∧
      loadExit (loadYaml (.parsed (.map kvs))) = some 1) ∧
    (loadYaml .missing = .notFound ∧ loadExit (loadYaml .missing) = some 1) ∧
    (loadYaml .malformed = .parseError ∧
      loadExit (loadYaml .malformed) = some 1) := by
  refine ⟨fun d h => ?_, fun kvs ht hk => ?_, fun kvs pkvs hp hn => ?_,
    ⟨rfl, rfl⟩, ⟨rfl, rfl⟩⟩
  · have h1 : loadYaml (.parsed d) = .validationError "YAML file is empty" := by
      simp [loadYaml, h]
    exact ⟨h1, by rw [h1]; rfl⟩
  · have h1 : loadYaml (.parsed (.map kvs)) =
        .validationError "Missing required personal section" := by
      simp only [hasKey] at hk
      simp [loadYaml, pyContains, ht, hk]
    exact ⟨h1, by rw [h1]; rfl⟩
  · have ht : truthy (Yaml.map kvs) = true := by
      cases kvs with
      | nil => simp [optLookup] at hp
      | cons kv t => rfl
    have h1 : loadYaml (.parsed (.map kvs)) =
        .validationError "Missing required name field in personal section" := by
      simp only [hasKey] at hn
      simp [loadYaml, pyContains, pyGetItem, ht, hp, hn]
    exact ⟨h1, by rw [h1]; rfl⟩

/-- Witness for the amended C2 at three concrete documents. -/
theorem load_validation_spec_witness :
    loadYaml (.parsed .null) = .validationError "YAML file is empty" ∧
    loadYaml (.parsed (.map [("title", .null)])) =
      .validationError "Missing required personal section" ∧
    loadYaml (.parsed (.map [("personal", .map [("email", .null)])])) =
      .validationError "Missing required name field in personal section" :=
  ⟨(load_validation_spec.1 .null rfl).1,
   (load_validation_spec.2.1 [("title", .null)] rfl rfl).1,
   (load_validation_spec.2.2.1 [("personal", .map [("email", .null)])]
      [("email", .null)] rfl rfl).1⟩

/-- C10: validation only checks presence of the `name` key; any mapping
document whose `personal` mapping contains `name` — even bound to null
or the empty string — is accepted. -/
theorem load_accepts_any_name_value (kvs pkvs : List (String × Yaml)) (v : Yaml)
    (hp : optLookup (.map kvs) "personal" = some (.map pkvs))
    (hn : optLookup (.map pkvs) "name" = some v) :
    loadYaml (.parsed (.map kvs)) = .ok (.map kvs) := by
  have ht : truthy (Yaml.map kvs) = true := by
    cases kvs with
    | nil => simp [optLookup] at hp
    | cons kv t => rfl
  simp [loadYaml, pyContains, pyGetItem, ht, hp, hn]

/-- Witness for C10: `name: null` and `name: ""` both load. -/
theorem load_accepts_any_name_value_witness :
    loadYaml (.parsed (.map [("personal", .map [("name", .null)])])) =
      .ok (.map [("personal", .map [("name", .null)])]) ∧
    loadYaml (.parsed (.map [("personal", .map [("name", .str "")])])) =
      .ok (.map [("personal", .map [("name", .str "")])]) :=
  ⟨load_accepts_any_name_value _ _ _ rfl rfl,
   load_accepts_any_name_value _ _ _ rfl rfl⟩

theorem resolves_getD (o : Option Yaml) (dflt : Yaml) :
    resolves o (o.getD dflt) dflt :=
  ⟨fun h => by simp [h], fun v h => by simp [h]⟩

/-- C6: for every document whose `config` value (or `{}` when absent)
is a mapping and whose `fonts` value (or `{}` when absent) is a
mapping, configuration resolution succeeds, and each of the twelve
options independently holds the documented default when unspecified
and the supplied value when specified. -/
theorem config_defaults_and_overrides (data : Yaml)
    (ckvs fkvs : List (String × Yaml))
    (hc : pyGet data "config" (.map []) = some (.map ckvs))
    (hf : pyGet (.map ckvs) "fonts" (.map []) = some (.map fkvs)) :
    ∃ c, loadConfigE data = some c ∧
      resolves (optLookup (.map fkvs) "name") c.font_name (.str "Helvetica") ∧
      resolves (optLookup (.map fkvs) "name_bold") c.font_name_bold (.str "Helvetica-Bold") ∧
      resolves (optLookup (.map fkvs) "name_italic") c.font_name_italic (.str "Helvetica-Oblique") ∧
      resolves (optLookup (.map fkvs) "name_size") c.name_size (.int 20) ∧
      resolves (optLookup (.map fkvs) "section_header_size") c.section_header_size (.int 12) ∧
      resolves (optLookup (.map fkvs) "title_size") c.title_size (.int 10) ∧
      resolves (optLookup (.map fkvs) "body_size") c.body_size (.int 9) ∧
      resolves (optLookup (.map ckvs) "margin") c.margin (.float 0.6) ∧
      resolves (optLookup (.map ckvs) "section_spacing") c.section_spacing (.float 0.08) ∧
      resolves (optLookup (.map ckvs) "item_spacing") c.item_spacing (.float 0.06) ∧
      resolves (optLookup (.map ckvs) "section_order") c.section_order
        (.list (defaultSectionOrder.map .str)) ∧
      resolves (optLookup (.map ckvs) "footer") c.footer (.bool false) := by
  have hsome : loadConfigE data = some
      { font_name := (optLookup (.map fkvs) "name").getD (.str "Helvetica")
        font_name_bold := (optLookup (.map fkvs) "name_bold").getD (.str "Helvetica-Bold")
        font_name_italic := (optLookup (.map fkvs) "name_italic").getD (.str "Helvetica-Oblique")
        name_size := (optLookup (.map fkvs) "name_size").getD (.int 20)
        section_header_size := (optLookup (.map fkvs) "section_header_size").getD (.int 12)
        title_size := (optLookup (.map fkvs) "title_size").getD (.int 10)
        body_size := (optLookup (.map fkvs) "body_size").getD (.int 9)
        margin := (optLookup (.map ckvs) "margin").getD (.float 0.6)
        section_spacing := (optLookup (.map ckvs) "section_spacing").getD (.float 0.08)
        item_spacing := (optLookup (.map ckvs) "item_spacing").getD (.float 0.06)
        section_order := (optLookup (.map ckvs) "section_order").getD
          (.list (defaultSectionOrder.map .str))
        footer := (optLookup (.map ckvs) "footer").getD (.bool false) } := by
    simp only [loadConfigE, hc, hf, dictGet]
  exact ⟨_, hsome, resolves_getD _ _, resolves_getD _ _, resolves_getD _ _,
    resolves_getD _ _, resolves_getD _ _, resolves_getD _ _, resolves_getD _ _,
    resolves_getD _ _, resolves_getD _ _, resolves_getD _ _, resolves_getD _ _,
    resolves_getD _ _⟩

/-- Witness for C6 at a document that overrides the font name and the
margin and leaves everything else unspecified. -/
theorem config_defaults_and_overrides_witness :
    ∃ c, loadConfigE (.map [("config", .map
        [("margin", .float 0.5),
         ("fonts", .map [("name", .str "Times")])])]) = some c ∧
      c.font_name = .str "Times" ∧
      c.body_size = .int 9 ∧
      c.margin = .float 0.5 ∧
      c.section_spacing = .float 0.08 ∧
      c.section_order = .list (defaultSectionOrder.map .str) ∧
      c.footer = .bool false := by
  obtain ⟨c, hsome, hn, _, _, _, _, _, hb, hm, hs, _, ho, hfo⟩ :=
    config_defaults_and_overrides
      (.map [("config", .map [("margin", .float 0.5),
        ("fonts", .map [("name", .str "Times")])])])
      [("margin", .float 0.5), ("fonts", .map [("name", .str "Times")])]
      [("name", .str "Times")] rfl rfl
  exact ⟨c, hsome, hn.2 _ rfl, hb.1 rfl, hm.2 _ rfl, hs.1 rfl, ho.1 rfl, hfo.1 rfl⟩

/-- C7: a valid document whose only content is `personal.name` loads,
produces exactly the header blocks (the name paragraph and the trailing
header spacer) with no section or footer blocks and no warnings, and
the run exits 0. -/
theorem solo_doc_header_only (s : String) :
    loadYaml (.parsed (soloDoc s)) = .ok (soloDoc s) ∧
    generateE (soloDoc s) =
      some ([Block.para s "Name",
             Block.spacer (toQ defaultConfig.section_spacing * inch)], []) ∧
    runProgram (.parsed (soloDoc s)) true = 0 :=
  ⟨rfl, rfl, rfl⟩

/-- C8: the input-to-block-sequence transformation is a pure function
of the document, so identical inputs yield identical block sequences,
warnings and output filenames. -/
theorem generate_deterministic (d1 d2 : Yaml) (h : d1 = d2) :
    generateE d1 = generateE d2 ∧ outputFileName d1 = outputFileName d2 := by
  subst h
  exact ⟨rfl, rfl⟩

/-- Witness for C8 at a concrete document. -/
theorem generate_deterministic_witness :
    generateE (soloDoc "Jane Roe") = generateE (soloDoc "Jane Roe") ∧
    outputFileName (soloDoc "Jane Roe") = outputFileName (soloDoc "Jane Roe") :=
  generate_deterministic (soloDoc "Jane Roe") (soloDoc "Jane Roe") rfl

theorem buildSummary_skip (d : Yaml) (c : Config) (s : List Block)
    (h : hasKey d "summary" = false ∨ truthy (getItemD d "summary") = false) :
    buildSummary d c s = s := by
  rcases h with h | h
  · simp [buildSummary, h]
  · unfold buildSummary
    by_cases hk : hasKey d "summary" = false
    · simp [hk]
    · rw [if_neg hk]
      cases hv : getItemD d "summary" with
      | str a =>
          rw [hv] at h
          simp only [truthy, bne_eq_false_iff_eq] at h
          subst h
          rfl
      | list xs =>
          rw [hv] at h
          simp only [truthy, Bool.not_eq_false'] at h
          rw [List.isEmpty_iff.mp h]
          rfl
      | int n => rfl
      | float q => rfl
      | bool b => rfl
      | null => rfl
      | map kvs => rfl

theorem buildExperience_skip (d : Yaml) (c : Config) (s : List Block)
    (h : hasKey d "experience" = false ∨ truthy (getItemD d "experience") = false) :
    buildExperience d c s = s := by
  rcases h with h | h
  · simp [buildExperience, h]
  · by_cases hk : hasKey d "experience" = false
    · simp [buildExperience, hk]
    · simp [buildExperience, hk, h]

theorem buildEducation_skip (d : Yaml) (c : Config) (s : List Block)
    (h : hasKey d "education" = false ∨ truthy (getItemD d "education") = false) :
    buildEducation d c s = s := by
  rcases h with h | h
  · simp [buildEducation, h]
  · by_cases hk : hasKey d "education" = false
    · simp [buildEducation, hk]
    · simp [buildEducation, hk, h]

theorem buildSkills_skip (d : Yaml) (c : Config) (s : List Block)
    (h : hasKey d "skills" = false ∨ truthy (getItemD d "skills") = false) :
    buildSkills d c s = s := by
  rcases h with h | h
  · simp [buildSkills, h]
  · by_cases hk : hasKey d "skills" = false
    · simp [buildSkills, hk]
    · simp [buildSkills, hk, h]

theorem buildProjects_skip (d : Yaml) (c : Config) (s : List Block)
    (h : hasKey d "projects" = false ∨ truthy (getItemD d "projects") = false) :
    buildProjects d c s = s := by
  rcases h with h | h
  · simp [buildProjects, h]
  · by_cases hk : hasKey d "projects" = false
    · simp [buildProjects, hk]
    · simp [buildProjects, hk, h]

theorem buildCertifications_skip (d : Yaml) (c : Config) (s : List Block)
    (h : hasKey d "certifications" = false ∨
      truthy (getItemD d "certifications") = false) :
    buildCertifications d c s = s := by
  rcases h with h | h
  · simp [buildCertifications, h]
  · by_cases hk : hasKey d "certifications" = false
    · simp [buildCertifications, hk]
    · simp [buildCertifications, hk, h]

theorem buildAwards_skip (d : Yaml) (c : Config) (s : List Block)
    (h : hasKey d "awards" = false ∨ truthy (getItemD d "awards") = false) :
    buildAwards d c s = s := by
  rcases h with h | h
  · simp [buildAwards, h]
  · by_cases hk : hasKey d "awards" = false
    · simp [buildAwards, hk]
    · simp [buildAwards, hk, h]

theorem buildPublications_skip (d : Yaml) (c : Config) (s : List Block)
    (h : hasKey d "publications" = false ∨
      truthy (getItemD d "publications") = false) :
    buildPublications d c s = s := by
  rcases h with h | h
  · simp [buildPublications, h]
  · by_cases hk : hasKey d "publications" = false
    · simp [buildPublications, hk]
    · simp [buildPublications, hk, h]

theorem buildLanguages_skip (d : Yaml) (c : Config) (s : List Block)
    (h : hasKey d "languages" = false ∨ truthy (getItemD d "languages") = false) :
    buildLanguages d c s = s := by
  rcases h with h | h
  · simp [buildLanguages, h]
  · by_cases hk : hasKey d "languages" = false
    · simp [buildLanguages, hk]
    · simp [buildLanguages, hk, h]

theorem buildVolunteer_skip (d : Yaml) (c : Config) (s : List Block)
    (h : hasKey d "volunteer" = false ∨ truthy (getItemD d "volunteer") = false) :
    buildVolunteer d c s = s := by
  rcases h with h | h
  · simp [buildVolunteer, h]
  · by_cases hk : hasKey d "volunteer" = false
    · simp [buildVolunteer, hk]
    · simp [buildVolunteer, hk, h]

/-- C4: every section renderer appends nothing at all — no header, no
divider rule, no spacer — when its key is absent from the document or
its value is falsy (empty list, empty mapping, null, and the other
falsy shapes). -/
theorem empty_section_emits_nothing (d : Yaml) (c : Config) (s : List Block) :
    ((hasKey d "summary" = false ∨ truthy (getItemD d "summary") = false) →
      buildSummary d c s = s) ∧
    ((hasKey d "experience" = false ∨ truthy (getItemD d "experience") = false) →
      buildExperience d c s = s) ∧
    ((hasKey d "education" = false ∨ truthy (getItemD d "education") = false) →
      buildEducation d c s = s) ∧
    ((hasKey d "skills" = false ∨ truthy (getItemD d "skills") = false) →
      buildSkills d c s = s) ∧
    ((hasKey d "projects" = false ∨ truthy (getItemD d "projects") = false) →
      buildProjects d c s = s) ∧
    ((hasKey d "certifications" = false ∨
        truthy (getItemD d "certifications") = false) →
      buildCertifications d c s = s) ∧
    ((hasKey d "awards" = false ∨ truthy (getItemD d "awards") = false) →
      buildAwards d c s = s) ∧
    ((hasKey d "publications" = false ∨
        truthy (getItemD d "publications") = false) →
      buildPublications d c s = s) ∧
    ((hasKey d "languages" = false ∨ truthy (getItemD d "languages") = false) →
      buildLanguages d c s = s) ∧
    ((hasKey d "volunteer" = false ∨ truthy (getItemD d "volunteer") = false) →
      buildVolunteer d c s = s) :=
  ⟨buildSummary_skip d c s, buildExperience_skip d c s, buildEducation_skip d c s,
   buildSkills_skip d c s, buildProjects_skip d c s, buildCertifications_skip d c s,
   buildAwards_skip d c s, buildPublications_skip d c s, buildLanguages_skip d c s,
   buildVolunteer_skip d c s⟩

/-- Witness for C4: an absent experience key and an empty (falsy)
skills list both leave the story untouched. -/
theorem empty_section_emits_nothing_witness :
    buildExperience (.map [("personal", .null)]) defaultConfig [Block.hr] = [Block.hr] ∧
    buildSkills (.map [("skills", .list [])]) defaultConfig [Block.hr] = [Block.hr] :=
  ⟨(empty_section_emits_nothing (.map [("personal", .null)]) defaultConfig
      [Block.hr]).2.1 (Or.inl rfl),
   (empty_section_emits_nothing (.map [("skills", .list [])]) defaultConfig
      [Block.hr]).2.2.2.1 (Or.inr rfl)⟩

/-- C3 counterexample: the education renderer does NOT omit
whitespace-only highlights.  On a document whose single education entry
has the lone highlight `" "`, the emitted blocks contain the bullet
paragraph for it (the string `• ` followed by the space), contradicting
the claim that every renderer skips blank highlights. -/
theorem education_keeps_blank_highlight :
    buildEducation
      (.map [("education", .list [.map [("highlights", .list [.str " "])]])])
      defaultConfig [] =
    [Block.para "EDUCATION" "SectionHeader", Block.hr,
     Block.para "•  " "ResumeBody",
     Block.spacer (toQ defaultConfig.section_spacing * inch)] := rfl

theorem keep_str (h : String) :
    (truthy (.str h) && pyStrip (strOf (.str h)) != "") = (pyStrip h != "") := by
  by_cases h0 : h = ""
  · subst h0
    decide
  · simp [truthy, strOf, h0]

/-- C3 amended: the experience renderer's highlight loop emits exactly
the bullets of the highlights whose stripped text is non-empty, in
their original order, while the loop shared by the education, projects
and volunteer renderers emits a bullet for every highlight — including
empty and whitespace-only ones — in their original order. -/
theorem highlight_filter_spec (hs : List String) :
    expHighlightBlocks (hs.map Yaml.str) =
      (hs.filter (fun h => pyStrip h != "")).map
        (fun h => Block.para ("• " ++ h) "ResumeBody") ∧
    plainHighlightBlocks (hs.map Yaml.str) =
      hs.map (fun h => Block.para ("• " ++ h) "ResumeBody") := by
  constructor
  · induction hs with
    | nil => rfl
    | cons h t ih =>
        simp only [List.map_cons, expHighlightBlocks, keep_str, List.filter_cons]
        by_cases hps : (pyStrip h != "") = true
        · simp [hps, mkBullet, strOf, ih]
        · simp only [Bool.not_eq_true] at hps
          simp [hps, ih]
  · simp [plainHighlightBlocks, List.map_map, Function.comp_def, mkBullet, strOf]

theorem runSections_skips_unknown (d : Yaml) (c : Config) :
    ∀ (names : List Yaml) (s : List Block),
      (runSections d c names s).1 =
        (runSections d c (names.filter recognizedName) s).1 ∧
      (runSections d c names s).2 =
        (names.filter (fun y => !recognizedName y)).map strOf := by
  intro names
  induction names with
  | nil => intro s; exact ⟨rfl, rfl⟩
  | cons y t ih =>
      intro s
      cases y with
      | str n =>
          cases hsb : sectionBuilder n with
          | some b =>
              have hr : recognizedName (.str n) = true := by
                simp [recognizedName, hsb]
              simp [runSections, hsb, hr, List.filter_cons, ih]
          | none =>
              have hr : recognizedName (.str n) = false := by
                simp [recognizedName, hsb]
              simp [runSections, hsb, hr, List.filter_cons, ih, strOf]
      | int n => simp [runSections, recognizedName, List.filter_cons, ih]
      | float q => simp [runSections, recognizedName, List.filter_cons, ih]
      | bool b => simp [runSections, recognizedName, List.filter_cons, ih]
      | null => simp [runSections, recognizedName, List.filter_cons, ih]
      | list xs => simp [runSections, recognizedName, List.filter_cons, ih]
      | map kvs => simp [runSections, recognizedName, List.filter_cons, ih]

/-- C5: the section loop renders exactly the recognized names, in list
order — on a configuration ordering education before experience the
final sequence is the header extended by the education blocks and then
the experience blocks — while every unrecognized entry is skipped
without affecting the rendered blocks and is reported as a warning, in
order. -/
theorem section_order_spec (d : Yaml) (c : Config) (names : List Yaml)
    (s : List Block) :
    ((runSections d c names s).1 =
        (runSections d c (names.filter recognizedName) s).1 ∧
      (runSections d c names s).2 =
        (names.filter (fun y => !recognizedName y)).map strOf) ∧
    (∀ cfg, loadConfigE d = some cfg →
      cfg.section_order = .list [.str "education", .str "experience"] →
      generateE d = some (footerStep cfg
        (buildExperience d cfg (buildEducation d cfg (buildHeader d cfg []))),
        [])) := by
  refine ⟨runSections_skips_unknown d c names s, fun cfg hcfg hord => ?_⟩
  unfold generateE
  rw [hcfg]
  dsimp only
  rw [hord]
  rfl

/-- Witness for C5: on `orderDoc` (which supplies
`section_order: [education, experience]`) generation resolves that
order and renders education before experience with no warnings. -/
theorem section_order_spec_witness :
    loadConfigE orderDoc = some orderCfg ∧
    generateE orderDoc = some (footerStep orderCfg
      (buildExperience orderDoc orderCfg (buildEducation orderDoc orderCfg
        (buildHeader orderDoc orderCfg []))), []) :=
  ⟨rfl, (section_order_spec orderDoc orderCfg [] []).2 orderCfg rfl rfl⟩

theorem pref_rfl (l : List Block) : l <+: l :=
  ⟨[], List.append_nil l⟩

theorem pref_app (l t : List Block) : l <+: l ++ t :=
  ⟨t, rfl⟩

theorem itemLoop_pref (f : Yaml → List Block) (isp : ℚ) :
    ∀ (items : List Yaml) (i : Nat) (s : List Block),
      s <+: itemLoop f isp i items s := by
  intro items
  induction items with
  | nil => intro i s; exact pref_rfl s
  | cons e t ih =>
      intro i s
      simp only [itemLoop]
      refine .trans ?_ (ih (i + 1) _)
      by_cases hi : 0 < i
      · rw [if_pos hi]
        exact (pref_app _ _).trans (pref_app _ _)
      · rw [if_neg hi]
        exact pref_app _ _

theorem plainLoop_pref (f : Yaml → List Block) :
    ∀ (items : List Yaml) (s : List Block), s <+: plainLoop f items s := by
  intro items
  induction items with
  | nil => intro s; exact pref_rfl s
  | cons e t ih =>
      intro s
      simp only [plainLoop]
      exact (pref_app _ _).trans (ih _)

theorem addSectionHeader_pref (t : String) (s : List Block) :
    s <+: addSectionHeader t s :=
  pref_app _ _

theorem buildHeader_pref (d : Yaml) (c : Config) (s : List Block) :
    s <+: buildHeader d c s := by
  unfold buildHeader
  dsimp only
  repeat' split
  all_goals simp only [List.append_assoc]
  all_goals exact pref_app _ _

theorem buildSummary_pref (d : Yaml) (c : Config) (s : List Block) :
    s <+: buildSummary d c s := by
  unfold buildSummary
  split
  · exact pref_rfl s
  · dsimp only
    split
    · split
      · exact pref_rfl s
      · exact (addSectionHeader_pref _ s).trans (pref_app _ _)
    · split
      · exact pref_rfl s
      · exact (addSectionHeader_pref _ s).trans (pref_app _ _)
    · exact pref_rfl s

theorem buildExperience_pref (d : Yaml) (c : Config) (s : List Block) :
    s <+: buildExperience d c s := by
  unfold buildExperience
  split
  · exact pref_rfl s
  · split
    · exact pref_rfl s
    · exact ((addSectionHeader_pref _ s).trans
        (itemLoop_pref _ _ _ _ _)).trans (pref_app _ _)

theorem buildEducation_pref (d : Yaml) (c : Config) (s : List Block) :
    s <+: buildEducation d c s := by
  unfold buildEducation
  split
  · exact pref_rfl s
  · split
    · exact pref_rfl s
    · exact ((addSectionHeader_pref _ s).trans
        (itemLoop_pref _ _ _ _ _)).trans (pref_app _ _)

theorem buildSkills_pref (d : Yaml) (c : Config) (s : List Block) :
    s <+: buildSkills d c s := by
  unfold buildSkills
  split
  · exact pref_rfl s
  · split
    · exact pref_rfl s
    · dsimp only
      split
      · exact ((addSectionHeader_pref _ s).trans (pref_app _ _)).trans (pref_app _ _)
      · exact ((addSectionHeader_pref _ s).trans (pref_app _ _)).trans (pref_app _ _)
      · exact (addSectionHeader_pref _ s).trans (pref_app _ _)

theorem buildProjects_pref (d : Yaml) (c : Config) (s : List Block) :
    s <+: buildProjects d c s := by
  unfold buildProjects
  split
  · exact pref_rfl s
  · split
    · exact pref_rfl s
    · exact ((addSectionHeader_pref _ s).trans
        (itemLoop_pref _ _ _ _ _)).trans (pref_app _ _)

theorem buildCertifications_pref (d : Yaml) (c : Config) (s : List Block) :
    s <+: buildCertifications d c s := by
  unfold buildCertifications
  split
  · exact pref_rfl s
  · split
    · exact pref_rfl s
    · exact ((addSectionHeader_pref _ s).trans
        (plainLoop_pref _ _ _)).trans (pref_app _ _)

theorem buildAwards_pref (d : Yaml) (c : Config) (s : List Block) :
    s <+: buildAwards d c s := by
  unfold buildAwards
  split
  · exact pref_rfl s
  · split
    · exact pref_rfl s
    · exact ((addSectionHeader_pref _ s).trans
        (plainLoop_pref _ _ _)).trans (pref_app _ _)

theorem buildPublications_pref (d : Yaml) (c : Config) (s : List Block) :
    s <+: buildPublications d c s := by
  unfold buildPublications
  split
  · exact pref_rfl s
  · split
    · exact pref_rfl s
    · exact ((addSectionHeader_pref _ s).trans
        (plainLoop_pref _ _ _)).trans (pref_app _ _)

theorem buildLanguages_pref (d : Yaml) (c : Config) (s : List Block) :
    s <+: buildLanguages d c s := by
  unfold buildLanguages
  split
  · exact pref_rfl s
  · split
    · exact pref_rfl s
    · dsimp only
      split
      · exact ((addSectionHeader_pref _ s).trans (pref_app _ _)).trans (pref_app _ _)
      · exact ((addSectionHeader_pref _ s).trans (pref_app _ _)).trans (pref_app _ _)
      · exact (addSectionHeader_pref _ s).trans (pref_app _ _)

theorem buildVolunteer_pref (d : Yaml) (c : Config) (s : List Block) :
    s <+: buildVolunteer d c s := by
  unfold buildVolunteer
  split
  · exact pref_rfl s
  · split
    · exact pref_rfl s
    · exact ((addSectionHeader_pref _ s).trans
        (itemLoop_pref _ _ _ _ _)).trans (pref_app _ _)

theorem sectionBuilder_pref (n : String) (d : Yaml) (c : Config) (s : List Block) :
    s <+: ((sectionBuilder n).getD (fun _ _ st => st)) d c s := by
  unfold sectionBuilder
  split <;> dsimp only [Option.getD] <;>
    first
      | exact pref_rfl s
      | exact buildSummary_pref d c s
      | exact buildExperience_pref d c s
      | exact buildEducation_pref d c s
      | exact buildSkills_pref d c s
      | exact buildProjects_pref d c s
      | exact buildCertifications_pref d c s
      | exact buildAwards_pref d c s
      | exact buildPublications_pref d c s
      | exact buildLanguages_pref d c s
      | exact buildVolunteer_pref d c s

theorem runSections_pref (d : Yaml) (c : Config) :
    ∀ (names : List Yaml) (s : List Block), s <+: (runSections d c names s).1 := by
  intro names
  induction names with
  | nil => intro s; exact pref_rfl s
  | cons y t ih =>
      intro s
      cases y with
      | str n =>
          cases hsb : sectionBuilder n with
          | some b =>
              have hpre : s <+: b d c s := by
                have h0 := sectionBuilder_pref n d c s
                rw [hsb] at h0
                exact h0
              simpa [runSections, hsb] using hpre.trans (ih (b d c s))
          | none => simpa [runSections, hsb] using ih s
      | int n => simpa [runSections] using ih s
      | float q => simpa [runSections] using ih s
      | bool b => simpa [runSections] using ih s
      | null => simpa [runSections] using ih s
      | list xs => simpa [runSections] using ih s
      | map kvs => simpa [runSections] using ih s

theorem footerStep_pref (c : Config) (s : List Block) : s <+: footerStep c s := by
  unfold footerStep
  split
  · exact pref_app _ _
  · exact pref_rfl s

/-- C9: every story operation — the section header helper, the header
builder, each dispatched section renderer, the whole section loop and
the footer step — only extends the block sequence, so the blocks
already emitted remain an unchanged prefix of its output. -/
theorem story_append_only (d : Yaml) (c : Config) (s : List Block) (t : String) :
    s <+: addSectionHeader t s ∧
    s <+: buildHeader d c s ∧
    (∀ n b, sectionBuilder n = some b → s <+: b d c s) ∧
    (∀ names, s <+: (runSections d c names s).1) ∧
    s <+: footerStep c s := by
  refine ⟨addSectionHeader_pref t s, buildHeader_pref d c s, fun n b hb => ?_,
    fun names => runSections_pref d c names s, footerStep_pref c s⟩
  have h0 := sectionBuilder_pref n d c s
  rw [hb] at h0
  exact h0

/-- Witness for the amended C3 at a concrete highlight list: the
experience loop drops the whitespace-only entry, the shared plain loop
keeps it. -/
theorem highlight_filter_spec_witness :
    expHighlightBlocks ([" ", "x"].map Yaml.str) =
      [Block.para "• x" "ResumeBody"] ∧
    plainHighlightBlocks ([" ", "x"].map Yaml.str) =
      [Block.para "•  " "ResumeBody", Block.para "• x" "ResumeBody"] := by
  have h := highlight_filter_spec [" ", "x"]
  exact ⟨by rw [h.1]; rfl, by rw [h.2]; rfl⟩

/-- Witness for C7 at a concrete name. -/
theorem solo_doc_header_only_witness :
    generateE (soloDoc "Ada") =
      some ([Block.para "Ada" "Name",
             Block.spacer (toQ defaultConfig.section_spacing * inch)], []) ∧
    runProgram (.parsed (soloDoc "Ada")) true = 0 :=
  ⟨(solo_doc_header_only "Ada").2.1, (solo_doc_header_only "Ada").2.2⟩

/-- Witness for C9: a previously emitted block stays a prefix through a
dispatched renderer call. -/
theorem story_append_only_witness :
    [Block.hr] <+: buildSkills (Yaml.map []) defaultConfig [Block.hr] :=
  (story_append_only (Yaml.map []) defaultConfig [Block.hr] "X").2.2.1
    "skills" buildSkills rfl

end ResumeGen
